import Mathlib

/-!
Shallow embedding of the `rust-shader-fun` repository
(`src/color.rs`, `src/app.rs`, `src/renderer.rs`, `src/main.rs`).

Modelling conventions:
* `f32`/`f64` values are modelled as exact rationals (`ℚ`); the numeric
  conversions of the `palette` crate (`into_format`) are embedded as the
  exact arithmetic they perform (divide by 255 for `u8 → float`,
  multiply by 255 and round-half-away-from-zero with a saturating cast
  for `float → u8`).
* GPU objects (`wgpu` buffers, pipelines, bind groups, render passes) are
  embedded as symbolic records of the descriptors the code passes to the
  `wgpu` API; a frame render is a pure function returning the records it
  would submit.
* `HashMap<WindowId, Viewport>` is an association list; the "first"
  viewport used by `Renderer::reload` is the list head.
* Fallible code (`std::fs::read_to_string` behind `?`) takes the file
  system's answer as an `Option String` argument and returns `Except`.
-/

/-! ## Color model (`src/color.rs`) -/

/-- Rust `f64::round`: round half away from zero. -/
def rustRound (q : ℚ) : ℤ :=
  if 0 ≤ q then ⌊q + 1/2⌋ else -⌊-q + 1/2⌋

/-- `palette` component conversion `u8 → f64` (`into_format`): divide by 255. -/
def u8_to_f64 (x : Fin 256) : ℚ := (x.val : ℚ) / 255

/-- `palette` component conversion `f64 → u8` (`into_format`):
multiply by 255, round, saturating cast to `u8`. -/
def f64_to_u8 (x : ℚ) : Fin 256 :=
  if h1 : rustRound (x * 255) < 0 then ⟨0, by omega⟩
  else if h2 : 255 < rustRound (x * 255) then ⟨255, by omega⟩
  else ⟨(rustRound (x * 255)).toNat, by omega⟩

/-- `Color(pub LinSrgba<f64>)`: a linear RGBA color with `f64` components. -/
structure Color where
  red : ℚ
  green : ℚ
  blue : ℚ
  alpha : ℚ
deriving DecidableEq

/-- `egui::Color32`: packed 8-bit premultiplied sRGBA. -/
structure Color32 where
  r : Fin 256
  g : Fin 256
  b : Fin 256
  a : Fin 256
deriving DecidableEq

/-- `egui::Color32::BLUE` = (0, 0, 255, 255). -/
def Color32.BLUE : Color32 := ⟨0, 0, 255, 255⟩

/-- `impl From<egui::Color32> for Color`: stuff the raw bytes into
`LinSrgba` components and convert each to `f64` (divide by 255);
no gamma conversion is applied. -/
def Color32.toColor (value : Color32) : Color :=
  { red := u8_to_f64 value.r
    green := u8_to_f64 value.g
    blue := u8_to_f64 value.b
    alpha := u8_to_f64 value.a }

/-- `impl From<Color> for egui::Color32`: convert each component to `u8`
(times 255, rounded) and pack with `from_rgba_premultiplied`. -/
def Color.toColor32 (value : Color) : Color32 :=
  { r := f64_to_u8 value.red
    g := f64_to_u8 value.green
    b := f64_to_u8 value.blue
    a := f64_to_u8 value.alpha }

/-- `wgpu::Color`: an RGBA color with `f64` components. -/
structure WgpuColor where
  r : ℚ
  g : ℚ
  b : ℚ
  a : ℚ
deriving DecidableEq

/-- `wgpu::Color::WHITE`. -/
def WgpuColor.WHITE : WgpuColor := ⟨1, 1, 1, 1⟩

/-- `impl From<Color> for wgpu::Color`: componentwise copy. -/
def Color.to_wgpu (value : Color) : WgpuColor :=
  ⟨value.red, value.green, value.blue, value.alpha⟩

/-- `impl From<Color> for [f32; 4]`: componentwise (value-preserving in
the rational model). -/
def Color.to_f32_array (value : Color) : List ℚ :=
  [value.red, value.green, value.blue, value.alpha]

/-- `impl From<Color> for [f64; 4]`: componentwise. -/
def Color.to_f64_array (value : Color) : List ℚ :=
  [value.red, value.green, value.blue, value.alpha]

/-! ## Application state (`src/app.rs`) -/

/-- `App`: the UI-adjustable application state. The Rust field `open`
is a Lean keyword and is embedded as `open_flag`. -/
structure App where
  open_flag : Bool
  bg_color : Color
  triangle_color : Color
  blur_kernel : ℕ
deriving DecidableEq

/-- `App::new()`: dark-gray background, blue triangle, zero blur kernel. -/
def App.new : App :=
  { open_flag := true
    bg_color := { red := 1/10, green := 1/10, blue := 1/10, alpha := 1 }
    triangle_color := Color32.BLUE.toColor
    blur_kernel := 0 }

/-- One user edit performed through the widgets declared in `App::ui`:
the two `color_edit_button_srgba` pickers and the blur-kernel
`DragValue`.  The `DragValue` carries the value the user attempted to
set (any integer). -/
inductive UiEdit
  | setTriangleColor (c : Color32)
  | setBgColor (c : Color32)
  | dragBlurKernel (v : ℤ)
deriving DecidableEq

/-- Effect of one widget edit on the state.  The color pickers assign the
converted `Color32`; the blur-kernel control is
`egui::DragValue::new(..).clamp_range(0..=120)`, whose documented
behavior clamps the attempted value to the range before storing it. -/
def App.apply_edit (a : App) (e : UiEdit) : App :=
  match e with
  | .setTriangleColor c => { a with triangle_color := c.toColor }
  | .setBgColor c => { a with bg_color := c.toColor }
  | .dragBlurKernel v => { a with blur_kernel := (max 0 (min v 120)).toNat }

/-- `App::ui`: run the per-frame widget declaration, applying the edits
the user made this frame in order. -/
def App.ui (a : App) (edits : List UiEdit) : App :=
  edits.foldl App.apply_edit a

/-! ## Viewports (`src/renderer.rs`) -/

/-- `const MSAA_SAMPLES: u32 = 1`. -/
def MSAA_SAMPLES : ℕ := 1

/-- `const FORMAT_INDEX: usize = 0`. -/
def FORMAT_INDEX : ℕ := 0

/-- `const ALPHA_MODES_INDEX: usize = 0`. -/
def ALPHA_MODES_INDEX : ℕ := 0

/-- `wgpu::Limits::default().max_texture_dimension_3d`. -/
def max_texture_dimension_3d : ℕ := 2048

/-- `winit::dpi::PhysicalSize<u32>`. -/
structure PhysicalSize where
  width : ℕ
  height : ℕ
deriving DecidableEq

/-- A `wgpu::TextureFormat`, kept symbolic. -/
structure TextureFormat where
  id : ℕ
deriving DecidableEq

/-- The descriptor of a texture created by `device.create_texture`
(the offscreen multisample render target). -/
structure Texture where
  width : ℕ
  height : ℕ
  sample_count : ℕ
  format : TextureFormat
deriving DecidableEq

/-- `ViewportDesc::create_target_texture`: `None` when `MSAA_SAMPLES == 1`
or the requested size exceeds the default limits' maximum 3-D texture
dimension; otherwise a multisample texture clamped to that maximum. -/
def ViewportDesc.create_target_texture (size : PhysicalSize)
    (format : TextureFormat) : Option Texture :=
  if MSAA_SAMPLES = 1 then none
  else if max_texture_dimension_3d < size.width ∨
      max_texture_dimension_3d < size.height then none
  else some
    { width := min size.width max_texture_dimension_3d
      height := min size.height max_texture_dimension_3d
      sample_count := MSAA_SAMPLES
      format := format }

/-- The mutable part of `wgpu::SurfaceConfiguration` (usage and
`view_formats` are constants in the source and omitted). -/
structure SurfaceConfiguration where
  format : TextureFormat
  width : ℕ
  height : ℕ
  present_mode : ℕ
  alpha_mode : ℕ
deriving DecidableEq

/-- `ViewportDesc`: window id plus the background color passed at
construction (the surface handle is implicit). -/
structure ViewportDesc where
  window : ℕ
  background : WgpuColor
deriving DecidableEq

/-- `Viewport`: descriptor, surface configuration, optional offscreen
multisample target. -/
structure Viewport where
  desc : ViewportDesc
  config : SurfaceConfiguration
  render_target : Option Texture
deriving DecidableEq

/-- `Viewport::resize`: ignore zero-sized requests; otherwise store the
new dimensions, reconfigure the surface, and replace (destroying the
old) offscreen target. -/
def Viewport.resize (v : Viewport) (size : PhysicalSize) : Viewport :=
  if size.width = 0 ∨ size.height = 0 then v
  else
    let config := { v.config with width := size.width, height := size.height }
    { v with
      config := config
      render_target := ViewportDesc.create_target_texture size config.format }

/-! ## Pipeline construction (`src/renderer.rs`) -/

/-- A shader module as created by `device.create_shader_module`. -/
structure ShaderModule where
  label : String
  source : String
deriving DecidableEq

/-- `Vertex { position: Vec3 }`. -/
structure Vertex where
  position : ℚ × ℚ × ℚ
deriving DecidableEq

/-- Contents of a `wgpu::Buffer` created by `create_buffer_init`. -/
inductive BufferContents
  | vertices (vs : List Vertex)
  | indices (ids : List ℕ)
  | uniform (floats : List ℚ)
deriving DecidableEq

/-- A `wgpu::Buffer` descriptor. -/
structure WgpuBuffer where
  label : String
  contents : BufferContents
deriving DecidableEq

/-- The single-entry bind-group layout
(`binding 0`, fragment-stage uniform, `min_binding_size` 16 bytes). -/
structure BindGroupLayout where
  label : String
  binding : ℕ
  min_binding_size : ℕ
deriving DecidableEq

/-- The render-pipeline descriptor assembled by
`create_pipeline_and_buffers`. -/
structure RenderPipeline where
  label : String
  vertex_module : ShaderModule
  vertex_entry_point : String
  fragment_module : ShaderModule
  fragment_entry_point : String
  target_format : TextureFormat
  alpha_blending : Bool
  sample_count : ℕ
deriving DecidableEq

/-- The infallible tail of `Renderer::create_pipeline_and_buffers`,
given the shader text already read from disk: the two shader modules,
the fixed triangle geometry, the color bind-group layout, and the
pipeline descriptor. -/
def pipeline_parts (shader : String) (swapchain_format : TextureFormat) :
    RenderPipeline × BindGroupLayout × WgpuBuffer × WgpuBuffer × ℕ :=
  let vertex_shader : ShaderModule := ⟨"Vertex Shader", shader⟩
  let fragment_shader : ShaderModule := ⟨"Fragment Shader", shader⟩
  let vertices : List Vertex :=
    [⟨(-1/2, -1/2, 0)⟩, ⟨(1/2, -1/2, 0)⟩, ⟨(0, 1/2, 0)⟩]
  let indices : List ℕ := [0, 1, 2]
  let vertex_buffer : WgpuBuffer := ⟨"Vertex Buffer", .vertices vertices⟩
  let index_buffer : WgpuBuffer := ⟨"Index Buffer", .indices indices⟩
  let bind_group_layout : BindGroupLayout := ⟨"Color Bind Group Layout", 0, 16⟩
  let render_pipeline : RenderPipeline :=
    { label := "Render Pipeline"
      vertex_module := vertex_shader
      vertex_entry_point := "vs_main"
      fragment_module := fragment_shader
      fragment_entry_point := "fs_main"
      target_format := swapchain_format
      alpha_blending := true
      sample_count := MSAA_SAMPLES }
  (render_pipeline, bind_group_layout, vertex_buffer, index_buffer,
    indices.length)

/-- `Renderer::create_pipeline_and_buffers`: read
`src/shaders/triangle.wgsl` (the file system's answer is the
`shader_file` argument; `none` means the read failed and the error
propagates through `?`), then build the pipeline and buffers. -/
def create_pipeline_and_buffers (shader_file : Option String)
    (swapchain_format : TextureFormat) :
    Except String (RenderPipeline × BindGroupLayout × WgpuBuffer × WgpuBuffer × ℕ) :=
  match shader_file with
  | none => .error "shader file unreadable"
  | some shader => .ok (pipeline_parts shader swapchain_format)

/-! ## Renderer (`src/renderer.rs`) -/

/-- `Renderer`: viewport map (association list keyed by window id; the
head is the "first" viewport used by `reload`) plus the pipeline bundle.
The egui renderers/painters hold no state the claims depend on and are
omitted. -/
structure Renderer where
  viewports : List (ℕ × Viewport)
  render_pipeline : RenderPipeline
  bind_group_layout : BindGroupLayout
  vertex_buffer : WgpuBuffer
  index_buffer : WgpuBuffer
  num_indices : ℕ
deriving DecidableEq

/-- `Renderer::reload`: rebuild the pipeline bundle from the first
viewport's surface format; on any error (`no viewport`, or
`create_pipeline_and_buffers` failing) return it and leave `self`
untouched.  Modelled as a state-passing function returning the
`Result<()>` together with the post-call renderer. -/
def Renderer.reload (r : Renderer) (shader_file : Option String) :
    Except String Unit × Renderer :=
  match r.viewports.head? with
  | none => (.error "failed to get viewport", r)
  | some (_, viewport) =>
    match create_pipeline_and_buffers shader_file viewport.config.format with
    | .error e => (.error e, r)
    | .ok (render_pipeline, bind_group_layout, vertex_buffer, index_buffer,
        num_indices) =>
      (.ok (),
        { r with
          render_pipeline := render_pipeline
          bind_group_layout := bind_group_layout
          vertex_buffer := vertex_buffer
          index_buffer := index_buffer
          num_indices := num_indices })

/-- `Renderer::resize`: if the window id is registered, resize that
viewport and request a redraw (the returned `Bool`); otherwise do
nothing. -/
def Renderer.resize (r : Renderer) (window : ℕ) (size : PhysicalSize) :
    Renderer × Bool :=
  match r.viewports.lookup window with
  | none => (r, false)
  | some _ =>
    ({ r with
        viewports := r.viewports.map fun p =>
          if p.1 = window then (p.1, p.2.resize size) else p },
      true)

/-- One entry of a bind group (`wgpu::BindGroupEntry`): binding index and
the contents of the bound uniform buffer. -/
structure BindGroupEntry where
  binding : ℕ
  resource : List ℚ
deriving DecidableEq

/-- A bind group as created by `create_bind_group`. -/
structure BindGroup where
  label : String
  entries : List BindGroupEntry
deriving DecidableEq

/-- `create_bind_group`: upload the 4-float color array into a uniform
buffer and bind it at binding 0. -/
def create_bind_group (_layout : BindGroupLayout) (color : List ℚ) :
    BindGroup :=
  { label := "Color Bind Group"
    entries := [{ binding := 0, resource := color }] }

/-- Which texture view a render pass attaches to. -/
inductive TargetView
  | frame
  | offscreen
deriving DecidableEq

/-- `wgpu::LoadOp` for a color attachment. -/
inductive LoadOp
  | clear (c : WgpuColor)
  | load
deriving DecidableEq

/-- The color attachment of a render pass. -/
structure RenderPassAttachment where
  view : TargetView
  resolve_target : Option TargetView
  load : LoadOp
deriving DecidableEq

/-- Everything `Renderer::render_background` records into its render
pass and submits. -/
structure BackgroundDraw where
  pass : RenderPassAttachment
  pipeline : RenderPipeline
  bind_group_index : ℕ
  bind_group : BindGroup
  num_indices : ℕ
deriving DecidableEq

/-- `Renderer::render_background`.  The source computes the uniform as
`[color.r() as f32 / 255.0, ...]` on `app.triangle_color`, whose type
`Color` stores linear `f64` components (and in fact declares no `r()`
accessor — the expression dates from when the field was an
`egui::Color32` with `u8` channels); it is embedded as the linear
component divided by 255.  The pass clears to `wgpu::Color::WHITE` and
draws indices `0..num_indices`, resolving the offscreen target into the
frame view when one exists. -/
def Renderer.render_background (r : Renderer) (app : App)
    (view : TargetView) (target_view : Option TargetView) : BackgroundDraw :=
  let color := app.triangle_color
  let color_array : List ℚ :=
    [color.red / 255, color.green / 255, color.blue / 255, color.alpha / 255]
  let bind_group := create_bind_group r.bind_group_layout color_array
  let (passView, resolve_target) :=
    match target_view with
    | some target => (target, some view)
    | none => (view, none)
  { pass :=
      { view := passView
        resolve_target := resolve_target
        load := .clear WgpuColor.WHITE }
    pipeline := r.render_pipeline
    bind_group_index := 0
    bind_group := bind_group
    num_indices := r.num_indices }

/-- Observable outcome of one `Renderer::render` call: either the frame
was skipped (no command submitted, nothing presented), or the background
pass was submitted (followed by the egui pass and `frame.present()`). -/
inductive FrameOutput
  | skipped
  | rendered (background : BackgroundDraw)
deriving DecidableEq

/-- `Renderer::render`: skip the whole frame when the window size has a
zero dimension or the window id has no viewport; otherwise submit the
background pass and then run the egui pass, whose `app.ui` closure
applies this frame's user edits to the application state. -/
def Renderer.render (r : Renderer) (app : App) (window : ℕ)
    (size : PhysicalSize) (edits : List UiEdit) :
    Renderer × App × FrameOutput :=
  if size.width = 0 ∨ size.height = 0 then (r, app, .skipped)
  else
    match r.viewports.lookup window with
    | none => (r, app, .skipped)
    | some viewport =>
      let target_view : Option TargetView :=
        viewport.render_target.map fun _ => TargetView.offscreen
      let background := r.render_background app TargetView.frame target_view
      (r, app.ui edits, .rendered background)

/-! ## Event loop (`src/main.rs`) -/

/-- Outcome of `std::sync::mpsc::Receiver::try_recv` as matched in
`main`. -/
inductive TryRecvOutcome
  | ok_events
  | empty
  | disconnected
deriving DecidableEq

/-- What the end of one event-loop iteration does. -/
inductive LoopOutcome
  | continue_loop
  | fatal
deriving DecidableEq

/-- The tail of each `event_loop.run` iteration in `main`: poll the
file-watch channel.  A batch of events triggers `renderer.reload()`
followed by `.unwrap()` (fatal on reload error); an empty channel is
`Ok(())`; a disconnected channel becomes `Err(err)` and the final
`.unwrap()` terminates the loop fatally. -/
def poll_file_watch (r : Renderer) (shader_file : Option String)
    (recv : TryRecvOutcome) : LoopOutcome × Renderer :=
  match recv with
  | .ok_events =>
    match r.reload shader_file with
    | (.ok _, r2) => (.continue_loop, r2)
    | (.error _, r2) => (.fatal, r2)
  | .empty => (.continue_loop, r)
  | .disconnected => (.fatal, r)

/-! ## Concrete fixtures used by witnesses and counterexamples -/

/-- A surface format for tests (`caps.formats[FORMAT_INDEX]`, symbolic). -/
def testFormat : TextureFormat := ⟨0⟩

/-- A configured single-window viewport (window id 1, 800x600, no
multisample target, red construction background as in `main`). -/
def testViewport : Viewport :=
  { desc := { window := 1, background := ⟨1, 0, 0, 1⟩ }
    config :=
      { format := testFormat, width := 800, height := 600
        present_mode := 0, alpha_mode := 0 }
    render_target := none }

/-- A renderer over `testViewport` whose pipeline bundle was built from
a successfully read shader file. -/
def testRenderer : Renderer :=
  let parts := pipeline_parts "triangle.wgsl contents" testFormat
  { viewports := [(1, testViewport)]
    render_pipeline := parts.1
    bind_group_layout := parts.2.1
    vertex_buffer := parts.2.2.1
    index_buffer := parts.2.2.2.1
    num_indices := parts.2.2.2.2 }

/-- The application state after the user edits the background-color
picker to pure red `(255, 0, 0, 255)`. -/
def edited_app : App := App.new.ui [UiEdit.setBgColor ⟨255, 0, 0, 255⟩]

/-! ## Helper lemmas -/

/-- The floor of one half is zero. -/
theorem floor_half : ⌊(1/2 : ℚ)⌋ = 0 := by
  rw [Int.floor_eq_zero_iff]
  constructor <;> norm_num

/-- Rounding a nonnegative integer is the identity. -/
theorem rustRound_natCast (m : ℕ) : rustRound ((m : ℕ) : ℚ) = (m : ℤ) := by
  unfold rustRound
  rw [if_pos (by positivity)]
  rw [Int.floor_nat_add]
  rw [floor_half, add_zero]

/-- Packing after unpacking restores each 8-bit channel exactly. -/
theorem u8_roundtrip_channel (x : Fin 256) : f64_to_u8 (u8_to_f64 x) = x := by
  have hx : x.val < 256 := x.isLt
  have hE : rustRound ((x.val : ℚ) / 255 * 255) = ((x.val : ℕ) : ℤ) := by
    have h255 : ((x.val : ℚ) / 255) * 255 = ((x.val : ℕ) : ℚ) := by field_simp
    rw [h255]
    exact rustRound_natCast x.val
  unfold f64_to_u8 u8_to_f64
  simp only [hE]
  rw [dif_neg (by omega), dif_neg (by omega)]
  apply Fin.ext
  simp

/-- Unpacking after packing reproduces an in-range channel within half
of an 8-bit step. -/
theorem round_channel_close (x : ℚ) (h0 : 0 ≤ x) (h1 : x ≤ 1) :
    |u8_to_f64 (f64_to_u8 x) - x| ≤ 1/255 := by
  have hy0 : (0 : ℚ) ≤ x * 255 := by positivity
  have hy1 : x * 255 ≤ 255 := by nlinarith
  have hr : rustRound (x * 255) = ⌊x * 255 + 1/2⌋ := if_pos hy0
  set n : ℤ := ⌊x * 255 + 1/2⌋ with hn
  have hn0 : 0 ≤ n := Int.floor_nonneg.mpr (by linarith)
  have hn255 : n ≤ 255 := by
    have h256 : n < 256 := Int.floor_lt.mpr (by push_cast; linarith)
    omega
  have hle : (n : ℚ) ≤ x * 255 + 1/2 := Int.floor_le _
  have hgt : x * 255 + 1/2 < (n : ℚ) + 1 := Int.lt_floor_add_one _
  have hval : f64_to_u8 x = ⟨n.toNat, by omega⟩ := by
    unfold f64_to_u8
    simp only [hr]
    rw [dif_neg (by omega), dif_neg (by omega)]
  have hcast : ((n.toNat : ℕ) : ℚ) = (n : ℚ) := by
    rw [← Int.cast_natCast (R := ℚ), Int.toNat_of_nonneg hn0]
  rw [hval]
  unfold u8_to_f64
  simp only [hcast]
  rw [abs_le]
  constructor
  · linarith
  · linarith

/-- One widget edit keeps the blur-kernel field within its bound. -/
theorem apply_edit_blur_le (a : App) (e : UiEdit) (h : a.blur_kernel ≤ 120) :
    (a.apply_edit e).blur_kernel ≤ 120 := by
  cases e <;> simp [App.apply_edit] <;> omega

/-- Folding any edit sequence keeps the blur-kernel field within its
bound. -/
theorem ui_blur_le (edits : List UiEdit) :
    ∀ a : App, a.blur_kernel ≤ 120 → (a.ui edits).blur_kernel ≤ 120 := by
  induction edits with
  | nil => intro a h; exact h
  | cons e rest ih =>
    intro a h
    exact ih _ (apply_edit_blur_le a e h)


/-! ## Claim theorems -/

/-- C3: packed 8-bit RGBA → linear `Color` → packed 8-bit is the
identity, and linear `Color` (components in `[0,1]`) → packed 8-bit →
linear reproduces each component within `1/255`. -/
theorem color_pack_roundtrip :
    (∀ c : Color32, c.toColor.toColor32 = c) ∧
    (∀ col : Color,
      0 ≤ col.red → col.red ≤ 1 → 0 ≤ col.green → col.green ≤ 1 →
      0 ≤ col.blue → col.blue ≤ 1 → 0 ≤ col.alpha → col.alpha ≤ 1 →
      |col.toColor32.toColor.red - col.red| ≤ 1/255 ∧
      |col.toColor32.toColor.green - col.green| ≤ 1/255 ∧
      |col.toColor32.toColor.blue - col.blue| ≤ 1/255 ∧
      |col.toColor32.toColor.alpha - col.alpha| ≤ 1/255) := by
  constructor
  · intro c
    cases c with
    | mk r g b a =>
      simp [Color32.toColor, Color.toColor32, u8_roundtrip_channel]
  · intro col hr0 hr1 hg0 hg1 hb0 hb1 ha0 ha1
    exact ⟨round_channel_close _ hr0 hr1, round_channel_close _ hg0 hg1,
      round_channel_close _ hb0 hb1, round_channel_close _ ha0 ha1⟩

/-- Witness for C3 at the concrete color `(2/7, 0, 1, 1/2)`. -/
theorem color_pack_roundtrip_witness :
    |(Color.mk (2/7) 0 1 (1/2)).toColor32.toColor.red - (2/7 : ℚ)| ≤ 1/255 ∧
    |(Color.mk (2/7) 0 1 (1/2)).toColor32.toColor.green - (0 : ℚ)| ≤ 1/255 ∧
    |(Color.mk (2/7) 0 1 (1/2)).toColor32.toColor.blue - (1 : ℚ)| ≤ 1/255 ∧
    |(Color.mk (2/7) 0 1 (1/2)).toColor32.toColor.alpha - (1/2 : ℚ)| ≤ 1/255 :=
  color_pack_roundtrip.2 ⟨2/7, 0, 1, 1/2⟩ (by norm_num) (by norm_num)
    (by norm_num) (by norm_num) (by norm_num) (by norm_num) (by norm_num)
    (by norm_num)

/-- C10: a fresh `App` has background color linear `(0.1, 0.1, 0.1, 1)`,
triangle color the conversion of packed blue `(0, 0, 255, 255)`, and
blur kernel size `0`. -/
theorem app_new_initial_state :
    App.new.bg_color = { red := 1/10, green := 1/10, blue := 1/10, alpha := 1 } ∧
    App.new.triangle_color = Color32.toColor ⟨0, 0, 255, 255⟩ ∧
    App.new.blur_kernel = 0 :=
  ⟨rfl, rfl, rfl⟩

/-- C7: starting from a fresh `App`, every sequence of UI edits keeps
the blur-kernel field in `[0, 120]`, and the drag control clamps any
attempted out-of-range value to the nearest bound. -/
theorem blur_kernel_clamped :
    (∀ edits : List UiEdit, (App.new.ui edits).blur_kernel ≤ 120) ∧
    (∀ (a : App) (v : ℤ), 120 < v →
      (a.apply_edit (.dragBlurKernel v)).blur_kernel = 120) ∧
    (∀ (a : App) (v : ℤ), v < 0 →
      (a.apply_edit (.dragBlurKernel v)).blur_kernel = 0) := by
  refine ⟨fun edits => ui_blur_le edits App.new (by decide), ?_, ?_⟩
  · intro a v hv
    simp [App.apply_edit]
    omega
  · intro a v hv
    simp [App.apply_edit]
    omega

/-- Witness for C7's clamping at the attempted values `500` and `-7`. -/
theorem blur_kernel_clamped_witness :
    (App.new.apply_edit (.dragBlurKernel 500)).blur_kernel = 120 ∧
    (App.new.apply_edit (.dragBlurKernel (-7))).blur_kernel = 0 :=
  ⟨blur_kernel_clamped.2.1 App.new 500 (by decide),
    blur_kernel_clamped.2.2 App.new (-7) (by decide)⟩

/-- C5: the offscreen multisample target exists iff the fixed sample
count exceeds 1 and both requested dimensions fit the maximum texture
dimension; with `MSAA_SAMPLES = 1` both sides are false. -/
theorem offscreen_target_presence (size : PhysicalSize) (format : TextureFormat) :
    (ViewportDesc.create_target_texture size format).isSome ↔
      1 < MSAA_SAMPLES ∧ size.width ≤ max_texture_dimension_3d ∧
        size.height ≤ max_texture_dimension_3d := by
  simp [ViewportDesc.create_target_texture, MSAA_SAMPLES]

/-- C6: a zero-dimension resize leaves the viewport (surface
configuration and offscreen target) unchanged, and a zero-dimension
window skips the whole frame: no background pass, no UI pass, no state
change. -/
theorem zero_size_skips :
    (∀ (v : Viewport) (size : PhysicalSize),
      size.width = 0 ∨ size.height = 0 → v.resize size = v) ∧
    (∀ (r : Renderer) (app : App) (window : ℕ) (size : PhysicalSize)
      (edits : List UiEdit), size.width = 0 ∨ size.height = 0 →
      r.render app window size edits = (r, app, FrameOutput.skipped)) := by
  constructor
  · intro v size h
    unfold Viewport.resize
    rw [if_pos h]
  · intro r app window size edits h
    unfold Renderer.render
    rw [if_pos h]

/-- Witness for C6 at width-zero size `(0, 600)`. -/
theorem zero_size_skips_witness :
    testViewport.resize ⟨0, 600⟩ = testViewport ∧
    testRenderer.render App.new 1 ⟨0, 600⟩ [] =
      (testRenderer, App.new, FrameOutput.skipped) :=
  ⟨zero_size_skips.1 testViewport ⟨0, 600⟩ (Or.inl rfl),
    zero_size_skips.2 testRenderer App.new 1 ⟨0, 600⟩ [] (Or.inl rfl)⟩

/-- C9: `render` and `resize` on a window id with no registered viewport
change nothing: no redraw request, no frame output, identical state. -/
theorem unregistered_window_noop (r : Renderer) (app : App) (window : ℕ)
    (size : PhysicalSize) (edits : List UiEdit)
    (h : r.viewports.lookup window = none) :
    r.resize window size = (r, false) ∧
    r.render app window size edits = (r, app, FrameOutput.skipped) := by
  constructor
  · unfold Renderer.resize
    rw [h]
  · unfold Renderer.render
    by_cases hz : size.width = 0 ∨ size.height = 0
    · rw [if_pos hz]
    · rw [if_neg hz, h]

/-- Witness for C9: window id 2 is not in `testRenderer`'s viewport map. -/
theorem unregistered_window_noop_witness :
    testRenderer.resize 2 ⟨800, 600⟩ = (testRenderer, false) ∧
    testRenderer.render App.new 2 ⟨800, 600⟩ [] =
      (testRenderer, App.new, FrameOutput.skipped) :=
  unregistered_window_noop testRenderer App.new 2 ⟨800, 600⟩ [] rfl

/-- C4: whenever `reload` returns an error, every pipeline-bundle field
(render pipeline, bind-group layout, vertex buffer, index buffer, index
count) is exactly what it was before the call. -/
theorem reload_error_preserves_bundle (r : Renderer) (shader_file : Option String)
    (e : String) (h : (r.reload shader_file).1 = .error e) :
    (r.reload shader_file).2.render_pipeline = r.render_pipeline ∧
    (r.reload shader_file).2.bind_group_layout = r.bind_group_layout ∧
    (r.reload shader_file).2.vertex_buffer = r.vertex_buffer ∧
    (r.reload shader_file).2.index_buffer = r.index_buffer ∧
    (r.reload shader_file).2.num_indices = r.num_indices := by
  have h2 : (r.reload shader_file).2 = r := by
    unfold Renderer.reload at h ⊢
    rcases hv : r.viewports.head? with _ | ⟨w, vp⟩
    · rfl
    · rcases hf : shader_file with _ | s
      · rfl
      · rw [hv, hf] at h
        simp [create_pipeline_and_buffers] at h
  rw [h2]
  exact ⟨rfl, rfl, rfl, rfl, rfl⟩

/-- Witness for C4: an unreadable shader file fails `testRenderer`'s
reload and leaves its bundle intact. -/
theorem reload_error_preserves_bundle_witness :
    (testRenderer.reload none).2.render_pipeline = testRenderer.render_pipeline ∧
    (testRenderer.reload none).2.bind_group_layout = testRenderer.bind_group_layout ∧
    (testRenderer.reload none).2.vertex_buffer = testRenderer.vertex_buffer ∧
    (testRenderer.reload none).2.index_buffer = testRenderer.index_buffer ∧
    (testRenderer.reload none).2.num_indices = testRenderer.num_indices :=
  reload_error_preserves_bundle testRenderer none "shader file unreadable" rfl

/-- C8: a disconnected file-watch channel ends the loop fatally; an
empty channel continues it with the renderer untouched. -/
theorem watch_channel_outcomes (r : Renderer) (shader_file : Option String) :
    (poll_file_watch r shader_file .disconnected).1 = .fatal ∧
    (poll_file_watch r shader_file .empty).1 = .continue_loop ∧
    (poll_file_watch r shader_file .empty).2 = r :=
  ⟨rfl, rfl, rfl⟩

/-- The background-color edit stores exact linear red. -/
theorem edited_bg_red :
    edited_app.bg_color = { red := 1, green := 0, blue := 0, alpha := 1 } := by
  simp [edited_app, App.ui, App.apply_edit, App.new, Color32.toColor, u8_to_f64]
  norm_num [show ((255 : Fin 256).val) = 255 from rfl,
    show ((0 : Fin 256).val) = 0 from rfl]

/-- The uniform uploaded for the initial (packed-blue) triangle color. -/
theorem initial_uniform_contents :
    (testRenderer.render_background App.new TargetView.frame none).bind_group.entries =
      [{ binding := 0, resource := [0, 0, 1/255, 1/255] }] := by
  simp [Renderer.render_background, create_bind_group, App.new, Color32.toColor,
    Color32.BLUE, u8_to_f64]
  norm_num [show ((255 : Fin 256).val) = 255 from rfl,
    show ((0 : Fin 256).val) = 0 from rfl]

/-- The `From<Color> for [f32; 4]` conversion of the initial triangle
color. -/
theorem initial_color_f32_array : App.new.triangle_color.to_f32_array = [0, 0, 1, 1] := by
  simp [Color.to_f32_array, App.new, Color32.toColor, Color32.BLUE, u8_to_f64]
  norm_num [show ((255 : Fin 256).val) = 255 from rfl,
    show ((0 : Fin 256).val) = 0 from rfl]

/-- C1 counterexample: after editing the background picker to pure red,
the next frame's background pass does NOT clear to the application
state's background color — the load op is a clear to opaque white, not
to the stored (red) background color. -/
theorem background_clear_not_bg_color :
    (testRenderer.render edited_app 1 ⟨800, 600⟩ []).2.2 =
      FrameOutput.rendered
        (testRenderer.render_background edited_app TargetView.frame none) ∧
    (testRenderer.render_background edited_app TargetView.frame none).pass.load ≠
      LoadOp.clear edited_app.bg_color.to_wgpu := by
  refine ⟨rfl, ?_⟩
  have hload : (testRenderer.render_background edited_app TargetView.frame none).pass.load =
      LoadOp.clear WgpuColor.WHITE := rfl
  rw [hload, edited_bg_red]
  simp [Color.to_wgpu, WgpuColor.WHITE]

/-- C1 amended: the edit does set the stored background color to linear
red `(1, 0, 0, 1)`, but the next rendered frame's background pass
clears the frame to opaque white regardless, and the triangle's uniform
(hence its pixels) is unchanged by the edit. -/
theorem background_clear_white_after_bg_edit :
    edited_app.bg_color = { red := 1, green := 0, blue := 0, alpha := 1 } ∧
    (testRenderer.render edited_app 1 ⟨800, 600⟩ []).2.2 =
      FrameOutput.rendered
        (testRenderer.render_background edited_app TargetView.frame none) ∧
    (testRenderer.render_background edited_app TargetView.frame none).pass.load =
      LoadOp.clear WgpuColor.WHITE ∧
    (testRenderer.render_background edited_app TargetView.frame none).bind_group =
      (testRenderer.render_background App.new TargetView.frame none).bind_group :=
  ⟨edited_bg_red, rfl, rfl, rfl⟩

/-- C2: evaluation at the initial (packed-blue) triangle color.  The
uniform the background pass uploads at group 0, binding 0 is the linear
components divided by 255 — `[0, 0, 1/255, 1/255]` — whereas the
`From<Color> for [f32; 4]` conversion of the same color (what the claim
describes) is `[0, 0, 1, 1]`; the two disagree. -/
theorem triangle_uniform_divided_by_255 :
    (testRenderer.render_background App.new TargetView.frame none).bind_group_index = 0 ∧
    (testRenderer.render_background App.new TargetView.frame none).bind_group.entries =
      [{ binding := 0, resource := [0, 0, 1/255, 1/255] }] ∧
    App.new.triangle_color.to_f32_array = [0, 0, 1, 1] ∧
    (testRenderer.render_background App.new TargetView.frame none).bind_group.entries.map
        BindGroupEntry.resource ≠ [App.new.triangle_color.to_f32_array] := by
  refine ⟨rfl, initial_uniform_contents, initial_color_f32_array, ?_⟩
  rw [initial_uniform_contents, initial_color_f32_array]
  simp

/-- Witness for C5 at the concrete size 800x600. -/
theorem offscreen_target_presence_witness :
    (ViewportDesc.create_target_texture ⟨800, 600⟩ testFormat).isSome ↔
      1 < MSAA_SAMPLES ∧ 800 ≤ max_texture_dimension_3d ∧
        600 ≤ max_texture_dimension_3d :=
  offscreen_target_presence ⟨800, 600⟩ testFormat

/-- Witness for C8 at the concrete test renderer. -/
theorem watch_channel_outcomes_witness :
    (poll_file_watch testRenderer none .disconnected).1 = .fatal ∧
    (poll_file_watch testRenderer none .empty).1 = .continue_loop ∧
    (poll_file_watch testRenderer none .empty).2 = testRenderer :=
  watch_channel_outcomes testRenderer none
